/-
Verification of the method-body encoder of `startop/view_compiler/dex_builder.h`
(Android platform_frameworks_base, view compiler).

The header file is the authority for everything declared inline there:
the `Value` operand model, the `Instruction` record, the low-level
instruction-format encoders `Encode10x`/`Encode11x`/`Encode11n`/`Encode21c`/
`Encode35c`, `TypeDescriptor::short_descriptor`, and the `BuildNew` helper.
The out-of-line member bodies (`MethodBuilder::Encode`, `MakeRegister`,
`MakeLabel`, `RegisterValue`, `BindLabel`, `LabelValue`,
`Prototype::Shorty`, and the `DexBuilder` interning operations) live in a
translation unit that is not part of this tree; those are modelled from the
specification, and each such definition is marked `Modelled from the spec:`.

Machine integers are modelled as `Nat`/`Int` with explicit wrap-around:
`uint8_t` conversion is `% 256`, `uint16_t` (`dex::u2`, a code unit) is
`% 65536`, and `int8_t` keeps the signed range −128..127.
-/
import Mathlib

namespace StartopDex

/-- The `dex::u2` (16-bit code unit) value of an integer: two's-complement
wrap-around into 0..65535, as produced by C++ integer conversion. -/
def u2ofInt (z : Int) : Nat := (z % 65536).toNat

/-- Source `uint8_t` conversion of an unsigned value. -/
def u8 (n : Nat) : Nat := n % 256

/-- Source `uint16_t` conversion of an unsigned value. -/
def u16 (n : Nat) : Nat := n % 65536

----------------------------------------------------------------------
-- Operand values (class Value, dex_builder.h lines 108-134)
----------------------------------------------------------------------

/-- Source `Value::Kind`: the closed set of operand kinds. -/
inductive Kind where
  | kLocalRegister
  | kParameter
  | kImmediate
  | kString
  | kLabel
  | kType
  deriving DecidableEq, Repr

/-- Source `class Value`: a DEX register or constant — an immutable pair of a
numeric payload and a kind tag. -/
structure Value where
  value_ : Nat
  kind_ : Kind
  deriving DecidableEq, Repr

namespace Value

/-- Source `Value::Local`. -/
def Local (id : Nat) : Value := ⟨id, Kind.kLocalRegister⟩
/-- Source `Value::Parameter`. -/
def Parameter (id : Nat) : Value := ⟨id, Kind.kParameter⟩
/-- Source `Value::Immediate`. -/
def Immediate (value : Nat) : Value := ⟨value, Kind.kImmediate⟩
/-- Source `Value::String`. -/
def String (value : Nat) : Value := ⟨value, Kind.kString⟩
/-- Source `Value::Label`. -/
def Label (id : Nat) : Value := ⟨id, Kind.kLabel⟩
/-- Source `Value::Type` (named `TypeRef` because `Type` is a Lean keyword). -/
def TypeRef (id : Nat) : Value := ⟨id, Kind.kType⟩

/-- Source `Value::is_register`. -/
def is_register (v : Value) : Bool := v.kind_ == Kind.kLocalRegister
/-- Source `Value::is_parameter`. -/
def is_parameter (v : Value) : Bool := v.kind_ == Kind.kParameter
/-- Source `Value::is_variable`. -/
def is_variable (v : Value) : Bool := v.is_register || v.is_parameter
/-- Source `Value::is_immediate`. -/
def is_immediate (v : Value) : Bool := v.kind_ == Kind.kImmediate
/-- Source `Value::is_string`. -/
def is_string (v : Value) : Bool := v.kind_ == Kind.kString
/-- Source `Value::is_label`. -/
def is_label (v : Value) : Bool := v.kind_ == Kind.kLabel
/-- Source `Value::is_type`. -/
def is_type (v : Value) : Bool := v.kind_ == Kind.kType

/-- Source `Value::value`. -/
def value (v : Value) : Nat := v.value_

end Value

----------------------------------------------------------------------
-- Low-level instruction-format encoders (dex_builder.h lines 265-305)
--
-- Each encoder is translated as a function from its C++ parameter values
-- to the list of `dex::u2` code units it pushes onto `buffer_`, or a
-- `CheckError` when one of its `CHECK` assertions fires (a fatal abort in
-- the C++ code, so nothing is appended).  `uint8_t`/`int8_t` parameters
-- are taken as `Nat`/`Int` restricted to the declared type's range in the
-- theorems; the callers' implicit narrowing conversions are applied
-- explicitly (`u8`) where a wider value reaches the function.
----------------------------------------------------------------------

/-- A fired `CHECK` assertion: a fatal construction error. -/
inductive CheckError where
  | checkFailed
  deriving DecidableEq, Repr

/-- Source `MethodBuilder::Encode10x`: `00|op`, one code unit, no operands. -/
def Encode10x (opcode : Nat) : Except CheckError (List Nat) :=
  Except.ok [u16 opcode]

/-- Source `MethodBuilder::Encode11x`: `aa|op`.  The register parameter is
`uint8_t`; a wider register value is narrowed with `u8` as the C++ call
boundary does.  There is no `CHECK` in this encoder. -/
def Encode11x (opcode a : Nat) : Except CheckError (List Nat) :=
  Except.ok [u16 (u8 a * 256 + u8 opcode)]

/-- Source `MethodBuilder::Encode11n`: `b|a|op` with `CHECK_LT(a, 16)`,
`CHECK_LE(-8, b)`, `CHECK_LT(b, 8)`.  `a : uint8_t`, `b : int8_t`;
`b & 0xf` is the low nibble of the two's-complement representation,
i.e. `b % 16` with Euclidean remainder. -/
def Encode11n (opcode a : Nat) (b : Int) : Except CheckError (List Nat) :=
  if 16 ≤ a then Except.error CheckError.checkFailed
  else if b < -8 then Except.error CheckError.checkFailed
  else if 8 ≤ b then Except.error CheckError.checkFailed
  else Except.ok [u16 ((b % 16).toNat * 4096 + a * 256 + u8 opcode)]

/-- Source `MethodBuilder::Encode21c`: `aa|op|bbbb`, two code units.  The register
parameter is `uint8_t`, the pool index `uint16_t`; wider values are
narrowed (`u8`, `u16`) as the C++ call boundary does.  There is no `CHECK`
in this encoder. -/
def Encode21c (opcode a b : Nat) : Except CheckError (List Nat) :=
  Except.ok [u16 (u8 a * 256 + u8 opcode), u16 b]

/-- Source `MethodBuilder::Encode35c`: `a|g|op|bbbb|f|e|d|c`, three code units,
with `CHECK_LE(a, 5)` on the argument count and `CHECK_LT(·, 16)` on each
of the packed argument registers `c`..`g` (each `uint8_t`). -/
def Encode35c (opcode a b c d e f g : Nat) : Except CheckError (List Nat) :=
  if 5 < a then Except.error CheckError.checkFailed
  else if 16 ≤ c then Except.error CheckError.checkFailed
  else if 16 ≤ d then Except.error CheckError.checkFailed
  else if 16 ≤ e then Except.error CheckError.checkFailed
  else if 16 ≤ f then Except.error CheckError.checkFailed
  else if 16 ≤ g then Except.error CheckError.checkFailed
  else Except.ok [u16 (a * 4096 + g * 256 + u8 opcode),
                  u16 b,
                  u16 (f * 4096 + e * 256 + d * 16 + c)]

----------------------------------------------------------------------
-- Type descriptors and prototypes (dex_builder.h lines 58-103)
----------------------------------------------------------------------

/-- Source `class TypeDescriptor`: an immutable wrapper over a descriptor string. -/
structure TypeDescriptor where
  descriptor_ : String
  deriving DecidableEq, Repr

namespace TypeDescriptor

/-- Source `TypeDescriptor::Int`. -/
def Int : TypeDescriptor := ⟨"I"⟩
/-- Source `TypeDescriptor::Void`. -/
def Void : TypeDescriptor := ⟨"V"⟩

/-- Source `TypeDescriptor::descriptor`. -/
def descriptor (t : TypeDescriptor) : String := t.descriptor_

/-- Source `TypeDescriptor::short_descriptor`: `descriptor().substr(0, 1)`. -/
def short_descriptor (t : TypeDescriptor) : String :=
  ⟨t.descriptor.data.take 1⟩

end TypeDescriptor

/-- Source `class Prototype`: a return type plus an ordered parameter type list. -/
structure Prototype where
  return_type_ : TypeDescriptor
  param_types_ : List TypeDescriptor
  deriving DecidableEq, Repr

namespace Prototype

/-- Modelled from the spec: `Prototype::Shorty` is declared in the header
(line 93) but defined in the missing translation unit.  Per the spec the
shorty is "a compact shorty signature string (one character per type,
return type first)", each character being the type's short descriptor
(its descriptor's first character). -/
def Shorty (p : Prototype) : String :=
  p.param_types_.foldl
    (fun acc t => acc ++ t.short_descriptor)
    p.return_type_.short_descriptor

end Prototype

----------------------------------------------------------------------
-- Virtual instructions (dex_builder.h lines 140-204)
----------------------------------------------------------------------

/-- Source `Instruction::Op`: the virtual opcodes. -/
inductive Op where
  | kReturn
  | kReturnObject
  | kMove
  | kInvokeVirtual
  | kInvokeDirect
  | kBindLabel
  | kBranchEqz
  | kNew
  deriving DecidableEq, Repr

/-- Source `class Instruction`: an immutable virtual instruction record. -/
structure Instruction where
  opcode_ : Op
  method_id_ : Nat
  dest_ : Option Value
  args_ : List Value
  deriving DecidableEq, Repr

namespace Instruction

/-- Source `Instruction::OpNoArgs`. -/
def OpNoArgs (opcode : Op) : Instruction := ⟨opcode, 0, none, []⟩

/-- Source `Instruction::OpWithArgs`. -/
def OpWithArgs (opcode : Op) (dest : Option Value) (args : List Value) :
    Instruction := ⟨opcode, 0, dest, args⟩

/-- Source `Instruction::InvokeVirtual`: the receiver argument comes first. -/
def InvokeVirtual (method_id : Nat) (dest : Option Value) (this_arg : Value)
    (args : List Value) : Instruction :=
  ⟨Op.kInvokeVirtual, method_id, dest, this_arg :: args⟩

/-- Source `Instruction::InvokeDirect`: the receiver argument comes first. -/
def InvokeDirect (method_id : Nat) (dest : Option Value) (this_arg : Value)
    (args : List Value) : Instruction :=
  ⟨Op.kInvokeDirect, method_id, dest, this_arg :: args⟩

/-- Source `Instruction::opcode`. -/
def opcode (i : Instruction) : Op := i.opcode_
/-- Source `Instruction::method_id`. -/
def method_id (i : Instruction) : Nat := i.method_id_
/-- Source `Instruction::dest`. -/
def dest (i : Instruction) : Option Value := i.dest_
/-- Source `Instruction::args`. -/
def args (i : Instruction) : List Value := i.args_

end Instruction

----------------------------------------------------------------------
-- Method-encoder state (class MethodBuilder, dex_builder.h lines 216-349)
----------------------------------------------------------------------

/-- Source `MethodBuilder::LabelReference`: a pending back-patch site.
`instruction_offset` is the buffer offset at which the referring
instruction starts; `field_offset` is the buffer offset holding the
branch-offset field itself. -/
structure LabelReference where
  instruction_offset : Nat
  field_offset : Nat
  deriving DecidableEq, Repr

/-- Source `MethodBuilder::LabelData`: a label's optional bound address plus its
pending references. -/
structure LabelData where
  bound_address : Option Nat
  references : List LabelReference
  deriving DecidableEq, Repr

/-- The mutable state of a `MethodBuilder` that the encode pass reads and
writes: the accumulated virtual instructions, the output code-unit
buffer, the register counter, the label table and the running maximum
argument count. -/
structure MethodState where
  instructions : List Instruction
  buffer : List Nat
  num_registers : Nat
  labels : List LabelData
  max_args : Nat
  deriving DecidableEq, Repr

/-- A freshly constructed `MethodBuilder`'s state. -/
def MethodState.fresh : MethodState := ⟨[], [], 0, [], 0⟩

namespace MethodState

/-- Modelled from the spec: `MethodBuilder::MakeRegister` is declared in
the header (line 226) but defined in the missing translation unit.  Per
the spec, "allocating a register returns a fresh Local operand with the
next unused id starting at 0", backed by the monotonically increasing
counter `num_registers_` (header line 329). -/
def MakeRegister (s : MethodState) : Value × MethodState :=
  (Value.Local s.num_registers, { s with num_registers := s.num_registers + 1 })

/-- Modelled from the spec: `MethodBuilder::MakeLabel` is declared in the
header (line 228) but defined in the missing translation unit.  Per the
spec, "allocating a label returns a fresh unbound Label operand and
reserves a label record" in the table `labels_` (header line 344). -/
def MakeLabel (s : MethodState) : Value × MethodState :=
  (Value.Label s.labels.length,
   { s with labels := s.labels ++ [⟨none, []⟩] })

/-- Source `MethodBuilder::AddInstruction`: appends the instruction verbatim, in
call order. -/
def AddInstruction (s : MethodState) (instruction : Instruction) : MethodState :=
  { s with instructions := s.instructions ++ [instruction] }

/-- Modelled from the spec: `MethodBuilder::RegisterValue` is declared in
the header (line 308) but defined in the missing translation unit.  Per
the spec, "a parameter's final register number equals the total count of
allocated local registers plus its parameter index ... Local operands
resolve directly to their allocation id." -/
def RegisterValue (s : MethodState) (value : Value) : Nat :=
  if value.is_register then value.value
  else if value.is_parameter then s.num_registers + value.value
  else 0

/-- Modelled from the spec: `MethodBuilder::LabelValue` is declared in the
header (lines 310-316) but defined in the missing translation unit.  Per
the spec: "if already bound, the branch-offset field is computed
immediately as (bound address − this instruction's address) in code
units.  If unbound, a pending patch site {instruction offset, field
offset} is appended to the label's record and the field is written with a
placeholder" (placeholder 0; the returned value is a `dex::u2`). -/
def LabelValue (s : MethodState) (label : Value)
    (instruction_offset field_offset : Nat) : Nat × MethodState :=
  match s.labels[label.value]? with
  | none => (0, s)
  | some ld =>
    match ld.bound_address with
    | some addr => (u2ofInt ((addr : Int) - (instruction_offset : Int)), s)
    | none =>
      (0, { s with labels :=
              (s.labels.set label.value
                { ld with references :=
                    ⟨instruction_offset, field_offset⟩ :: ld.references }) })

/-- Modelled from the spec: `MethodBuilder::BindLabel` is declared in the
header (line 312) but defined in the missing translation unit.  Per the
spec: "Binding a label ... sets its bound address to the current buffer
length, then walks every pending site for that label and overwrites its
placeholder in place with the now-computable relative offset" (bound
address − the pending site's instruction offset, as a `dex::u2`). -/
def BindLabel (s : MethodState) (label : Value) : MethodState :=
  match s.labels[label.value]? with
  | none => s
  | some ld =>
    let addr := s.buffer.length
    let buf := ld.references.foldl
      (fun b r =>
        b.set r.field_offset
          (u2ofInt ((addr : Int) - (r.instruction_offset : Int))))
      s.buffer
    { s with
      buffer := buf,
      labels := s.labels.set label.value ⟨some addr, []⟩ }

/-- Appends already-encoded code units to the buffer: the effect on
`buffer_` of encoding any sequence of non-label-referring instructions. -/
def EmitUnits (s : MethodState) (units : List Nat) : MethodState :=
  { s with buffer := s.buffer ++ units }

/-- Modelled from the spec: the encode step for a conditional
branch-on-zero (`MethodBuilder::EncodeBranch`, declared at header line
258, defined in the missing translation unit).  Per the spec the branch
is "format D-style with an offset field resolved per the label
semantics": one code unit packing the test register and opcode, recorded
as this instruction's start address, followed by the offset field whose
value comes from `LabelValue`. -/
def EncodeBranchEqz (s : MethodState) (opcode : Nat) (test : Value)
    (target : Value) : MethodState :=
  let instruction_offset := s.buffer.length
  let field_offset := s.buffer.length + 1
  let s1 := { s with
              buffer := s.buffer ++ [u16 (u8 (s.RegisterValue test) * 256 + u8 opcode)] }
  let vs2 := s1.LabelValue target instruction_offset field_offset
  { vs2.2 with buffer := vs2.2.buffer ++ [vs2.1] }

end MethodState

----------------------------------------------------------------------
-- The encode pass (MethodBuilder::Encode / EncodeInstructions /
-- EncodeInstruction, declared at dex_builder.h lines 220-259)
----------------------------------------------------------------------

/-- Modelled from the spec: the concrete `art::Instruction::Code` opcode
values used by the encode pass.  The numeric values come from the DEX
instruction set that the header's format documentation references; none
of the verified claims depends on the particular numbers. -/
def RETURN_VOID : Nat := 0x0e
/-- Modelled from the spec: DEX opcode for return-with-value (primitive). -/
def RETURN_VALUE : Nat := 0x0f
/-- Modelled from the spec: DEX opcode for return-with-value (object). -/
def RETURN_OBJECT : Nat := 0x11
/-- Modelled from the spec: DEX opcode for a 4-bit-immediate constant load. -/
def CONST_4 : Nat := 0x12
/-- Modelled from the spec: DEX opcode for a string-constant load. -/
def CONST_STRING : Nat := 0x1a
/-- Modelled from the spec: DEX opcode for a virtual invocation. -/
def INVOKE_VIRTUAL : Nat := 0x6e
/-- Modelled from the spec: DEX opcode for a direct invocation. -/
def INVOKE_DIRECT : Nat := 0x70
/-- Modelled from the spec: DEX opcode for branch-if-zero. -/
def IF_EQZ : Nat := 0x38
/-- Modelled from the spec: DEX opcode for object allocation. -/
def NEW_INSTANCE : Nat := 0x22

/-- Conversion of an unsigned value to `int8_t` (two's-complement wrap). -/
def i8 (n : Nat) : Int := ((n : Int) + 128) % 256 - 128

namespace MethodState

/-- Appends the code units produced by a format encoder to the buffer, or
propagates the fatal `CHECK` failure (in which case nothing is appended). -/
def pushUnits (s : MethodState) (r : Except CheckError (List Nat)) :
    Except CheckError MethodState :=
  match r with
  | Except.error e => Except.error e
  | Except.ok units => Except.ok { s with buffer := s.buffer ++ units }

/-- Modelled from the spec: `MethodBuilder::EncodeInvoke` (declared at
header line 257, defined in the missing translation unit).  Format E:
argument count, the callee's interned method id as the pool index, and
the receiver-first argument registers packed four bits each; "every call
instruction updates a running maximum argument count across the whole
body". -/
def EncodeInvoke (s : MethodState) (opcode : Nat) (i : Instruction) :
    Except CheckError MethodState :=
  let regs := i.args.map s.RegisterValue
  let s1 := { s with max_args := max s.max_args i.args.length }
  s1.pushUnits
    (Encode35c opcode i.args.length i.method_id
      ((regs[0]?).getD 0) ((regs[1]?).getD 0) ((regs[2]?).getD 0)
      ((regs[3]?).getD 0) ((regs[4]?).getD 0))

/-- Modelled from the spec: `MethodBuilder::EncodeInstruction` (declared
at header line 249, defined in the missing translation unit): resolves
the virtual opcode and operand kinds to exactly one format encoder, per
the spec's opcode-to-format table — return-void is format A; return-
with-value format B (primitive vs object variant); a move of an
immediate is a format-C constant load and a move of a string a format-D
constant load (unhandled kind combinations are rejected); invocations
are format E; bind-label only triggers the backpatch procedure;
branch-if-zero resolves its offset per the label semantics; object
allocation is format D with the interned type id. -/
def EncodeInstruction (s : MethodState) (i : Instruction) :
    Except CheckError MethodState :=
  match i.opcode with
  | Op.kReturn =>
    match i.args with
    | [] => s.pushUnits (Encode10x RETURN_VOID)
    | [src] => s.pushUnits (Encode11x RETURN_VALUE (s.RegisterValue src))
    | _ => Except.error CheckError.checkFailed
  | Op.kReturnObject =>
    match i.args with
    | [] => s.pushUnits (Encode10x RETURN_VOID)
    | [src] => s.pushUnits (Encode11x RETURN_OBJECT (s.RegisterValue src))
    | _ => Except.error CheckError.checkFailed
  | Op.kMove =>
    match i.dest, i.args with
    | some d, [src] =>
      if src.is_immediate then
        s.pushUnits (Encode11n CONST_4 (u8 (s.RegisterValue d)) (i8 src.value))
      else if src.is_string then
        s.pushUnits (Encode21c CONST_STRING (s.RegisterValue d) src.value)
      else Except.error CheckError.checkFailed
    | _, _ => Except.error CheckError.checkFailed
  | Op.kInvokeVirtual => s.EncodeInvoke INVOKE_VIRTUAL i
  | Op.kInvokeDirect => s.EncodeInvoke INVOKE_DIRECT i
  | Op.kBindLabel =>
    match i.args with
    | [label] => Except.ok (s.BindLabel label)
    | _ => Except.error CheckError.checkFailed
  | Op.kBranchEqz =>
    match i.args with
    | [test, target] => Except.ok (s.EncodeBranchEqz IF_EQZ test target)
    | _ => Except.error CheckError.checkFailed
  | Op.kNew =>
    match i.dest, i.args with
    | some d, [t] => s.pushUnits (Encode21c NEW_INSTANCE (s.RegisterValue d) t.value)
    | _, _ => Except.error CheckError.checkFailed

/-- Modelled from the spec: `MethodBuilder::EncodeInstructions` (declared
at header line 248): the single left-to-right pass over the accumulated
virtual instructions. -/
def EncodeInstructions (s : MethodState) : Except CheckError MethodState :=
  s.instructions.foldlM EncodeInstruction s

end MethodState

/-- A method encoder: its state plus whether its encode pass has run. -/
structure MethodBuilder where
  state : MethodState
  encoded : Bool
  deriving DecidableEq, Repr

/-- An error surfaced by `MethodBuilder.Encode`. -/
inductive BuildError where
  | checkFailed
  | doubleEncode
  deriving DecidableEq, Repr

/-- Modelled from the spec: `MethodBuilder::Encode` (declared at header
line 221, defined in the missing translation unit).  Per the spec, "its
encode operation runs exactly once — re-invoking it is a contract
violation, not a supported idempotent operation" and "re-invoking the
encode pass on the same method encoder is rejected, not silently
re-appended": a second invocation is rejected outright, before the pass
touches the buffer. -/
def MethodBuilder.Encode (m : MethodBuilder) :
    Except BuildError (List Nat × MethodBuilder) :=
  if m.encoded then Except.error BuildError.doubleEncode
  else
    match m.state.EncodeInstructions with
    | Except.error _ => Except.error BuildError.checkFailed
    | Except.ok s => Except.ok (s.buffer, ⟨s, true⟩)

----------------------------------------------------------------------
-- DexBuilder interning (dex_builder.h lines 369-434)
----------------------------------------------------------------------

/-- Source `DexBuilder::MethodDescriptor`: the key for interned methods —
defining type, name and prototype. -/
structure MethodDescriptor where
  type : TypeDescriptor
  name : String
  prototype : Prototype
  deriving DecidableEq, Repr

/-- Looks a key up in an association table. -/
def lookupKey {κ : Type} [DecidableEq κ] (table : List (κ × Nat)) (key : κ) :
    Option Nat :=
  match table with
  | [] => none
  | e :: rest => if e.1 = key then some e.2 else lookupKey rest key

/-- Modelled from the spec: the get-or-create discipline shared by all
four interning tables — "a repeated key always returns the id assigned
on first sight; a new key allocates the next id and records the
mapping"; tables are append-only and "entries are never removed for the
lifetime of one artifact build". -/
def getOrCreate {κ : Type} [DecidableEq κ] (table : List (κ × Nat)) (key : κ) :
    Nat × List (κ × Nat) :=
  match lookupKey table key with
  | some id => (id, table)
  | none => (table.length, table ++ [(key, table.length)])

/-- Source `class DexBuilder`: the interning tables it owns —
`types_by_descriptor_`, `strings_`, `proto_map_` and `method_id_map_`
(header lines 411, 430, 433, 427), each modelled as the association of
keys to interned ids in first-sight order. -/
structure DexState where
  types_by_descriptor : List (String × Nat)
  strings : List (String × Nat)
  proto_map : List (Prototype × Nat)
  method_id_map : List (MethodDescriptor × Nat)
  deriving DecidableEq, Repr

/-- A freshly constructed `DexBuilder`'s tables. -/
def DexState.fresh : DexState := ⟨[], [], [], []⟩

namespace DexState

/-- Modelled from the spec: `DexBuilder::GetOrAddType` (declared at header
line 390): get-or-create keyed by descriptor string, returning the
interned type's id. -/
def GetOrAddType (d : DexState) (descriptor : String) : Nat × DexState :=
  let r := getOrCreate d.types_by_descriptor descriptor
  (r.1, { d with types_by_descriptor := r.2 })

/-- Modelled from the spec: `DexBuilder::GetOrAddString` (declared at
header line 383): get-or-create keyed by the literal string value. -/
def GetOrAddString (d : DexState) (s : String) : Nat × DexState :=
  let r := getOrCreate d.strings s
  (r.1, { d with strings := r.2 })

/-- Modelled from the spec: `DexBuilder::GetOrEncodeProto` (declared at
header line 399): get-or-create keyed by the full signature tuple. -/
def GetOrEncodeProto (d : DexState) (prototype : Prototype) : Nat × DexState :=
  let r := getOrCreate d.proto_map prototype
  (r.1, { d with proto_map := r.2 })

/-- Modelled from the spec: `DexBuilder::GetOrDeclareMethod` (declared at
header lines 393-394): get-or-create keyed by (defining type, name,
prototype), returning the method id. -/
def GetOrDeclareMethod (d : DexState) (type : TypeDescriptor) (name : String)
    (prototype : Prototype) : Nat × DexState :=
  let r := getOrCreate d.method_id_map ⟨type, name, prototype⟩
  (r.1, { d with method_id_map := r.2 })

end DexState

----------------------------------------------------------------------
-- MethodBuilder::BuildNew (dex_builder.h lines 436-445)
----------------------------------------------------------------------

/-- Source `MethodBuilder::BuildNew` (header lines 436-445, defined inline):
interns the constructor as a direct method of `type` named `<init>`,
interns the type itself, then appends an object-allocation instruction
for `target` immediately followed by a direct invocation of the
constructor with `target` as the receiver and `args` after it. -/
def BuildNew (d : DexState) (s : MethodState) (target : Value)
    (type : TypeDescriptor) (constructor : Prototype) (args : List Value) :
    DexState × MethodState :=
  let constructor_data := d.GetOrDeclareMethod type "<init>" constructor
  let type_def := constructor_data.2.GetOrAddType type.descriptor
  let s1 := s.AddInstruction
    (Instruction.OpWithArgs Op.kNew (some target) [Value.TypeRef type_def.1])
  let s2 := s1.AddInstruction
    (Instruction.InvokeDirect constructor_data.1 none target args)
  (type_def.2, s2)

----------------------------------------------------------------------
-- Observers and concrete fixtures used by the statements below
----------------------------------------------------------------------

/-- The value returned by the k-th call (counting from 0) to
`MakeRegister`, starting from state `s`. -/
def MethodState.kthMakeRegister (s : MethodState) : Nat → Value
  | 0 => s.MakeRegister.1
  | k + 1 => s.MakeRegister.2.kthMakeRegister k

/-- A method-encoder state after three `MakeRegister` calls on a fresh
encoder: a method with 3 allocated local registers. -/
def threeLocalState : MethodState :=
  MethodState.fresh.MakeRegister.2.MakeRegister.2.MakeRegister.2

/-- A fresh method encoder holding a single return-void instruction. -/
def sampleBuilder : MethodBuilder :=
  ⟨MethodState.fresh.AddInstruction (Instruction.OpNoArgs Op.kReturn), false⟩

/-- The encoder `sampleBuilder` becomes after its encode pass has run:
the same instruction list, the encoded return-void code unit in the
buffer, and the encoded flag set. -/
def sampleEncoded : MethodBuilder :=
  ⟨⟨[Instruction.OpNoArgs Op.kReturn], [RETURN_VOID], 0, [], 0⟩, true⟩

/-- A method-encoder state holding exactly one allocated, unbound label. -/
def oneLabelState : MethodState := ⟨[], [], 0, [⟨none, []⟩], 0⟩

/-- The prototype (Int, Int) -> Void. -/
def voidIntInt : Prototype := ⟨TypeDescriptor.Void, [TypeDescriptor.Int, TypeDescriptor.Int]⟩

end StartopDex

namespace StartopDex

----------------------------------------------------------------------
-- Theorems
----------------------------------------------------------------------

/-- C10: every operand built by one of the six named constructors
satisfies exactly the kind predicate matching its constructor,
`is_variable` holds exactly for local registers and parameters, and
`value` returns the id passed at construction unchanged.  (Kind and
value cannot change afterward: `Value` has no mutating operation.) -/
theorem value_constructors_kinds_and_value (id : Nat) :
    ((Value.Local id).is_register = true ∧ (Value.Local id).is_parameter = false
      ∧ (Value.Local id).is_immediate = false ∧ (Value.Local id).is_string = false
      ∧ (Value.Local id).is_label = false ∧ (Value.Local id).is_type = false
      ∧ (Value.Local id).is_variable = true ∧ (Value.Local id).value = id)
  ∧ ((Value.Parameter id).is_register = false ∧ (Value.Parameter id).is_parameter = true
      ∧ (Value.Parameter id).is_immediate = false ∧ (Value.Parameter id).is_string = false
      ∧ (Value.Parameter id).is_label = false ∧ (Value.Parameter id).is_type = false
      ∧ (Value.Parameter id).is_variable = true ∧ (Value.Parameter id).value = id)
  ∧ ((Value.Immediate id).is_register = false ∧ (Value.Immediate id).is_parameter = false
      ∧ (Value.Immediate id).is_immediate = true ∧ (Value.Immediate id).is_string = false
      ∧ (Value.Immediate id).is_label = false ∧ (Value.Immediate id).is_type = false
      ∧ (Value.Immediate id).is_variable = false ∧ (Value.Immediate id).value = id)
  ∧ ((Value.String id).is_register = false ∧ (Value.String id).is_parameter = false
      ∧ (Value.String id).is_immediate = false ∧ (Value.String id).is_string = true
      ∧ (Value.String id).is_label = false ∧ (Value.String id).is_type = false
      ∧ (Value.String id).is_variable = false ∧ (Value.String id).value = id)
  ∧ ((Value.Label id).is_register = false ∧ (Value.Label id).is_parameter = false
      ∧ (Value.Label id).is_immediate = false ∧ (Value.Label id).is_string = false
      ∧ (Value.Label id).is_label = true ∧ (Value.Label id).is_type = false
      ∧ (Value.Label id).is_variable = false ∧ (Value.Label id).value = id)
  ∧ ((Value.TypeRef id).is_register = false ∧ (Value.TypeRef id).is_parameter = false
      ∧ (Value.TypeRef id).is_immediate = false ∧ (Value.TypeRef id).is_string = false
      ∧ (Value.TypeRef id).is_label = false ∧ (Value.TypeRef id).is_type = true
      ∧ (Value.TypeRef id).is_variable = false ∧ (Value.TypeRef id).value = id) := by
  repeat constructor

/-- C3: the format-C encoder rejects every immediate outside −8..7 and
every register id at or above 16 (within the `uint8_t`/`int8_t` domains
of its parameters), and the invoke encoder rejects every argument count
above 5 and every packed 4-bit argument register at or above 16; under
the complementary preconditions the error branch is unreachable and the
packed code units are produced. -/
theorem format_encoders_reject_out_of_range
    (op a cnt mid c d e f g : Nat) (b : Int)
    (ha : a < 256) (hb1 : -128 ≤ b) (hb2 : b < 128)
    (hc : c < 256) (hd : d < 256) (he : e < 256) (hf : f < 256) (hg : g < 256) :
    ((16 ≤ a ∨ b < -8 ∨ 7 < b) →
        Encode11n op a b = Except.error CheckError.checkFailed)
  ∧ (a < 16 → -8 ≤ b → b ≤ 7 → ∃ units, Encode11n op a b = Except.ok units)
  ∧ ((5 < cnt ∨ 16 ≤ c ∨ 16 ≤ d ∨ 16 ≤ e ∨ 16 ≤ f ∨ 16 ≤ g) →
        Encode35c op cnt mid c d e f g = Except.error CheckError.checkFailed)
  ∧ (cnt ≤ 5 → c < 16 → d < 16 → e < 16 → f < 16 → g < 16 →
        ∃ units, Encode35c op cnt mid c d e f g = Except.ok units) := by
  refine ⟨?_, ?_, ?_, ?_⟩
  · intro h
    unfold Encode11n
    split_ifs with h1 h2 h3 <;> first | rfl | omega
  · intro h1 h2 h3
    unfold Encode11n
    split_ifs with g1 g2 g3 <;> first | exact ⟨_, rfl⟩ | omega
  · intro h
    unfold Encode35c
    split_ifs <;> first | rfl | omega
  · intro h1 h2 h3 h4 h5 h6
    unfold Encode35c
    split_ifs <;> first | exact ⟨_, rfl⟩ | omega

/-- Witness for the C3 theorem: an immediate of 8 is rejected, an
invocation with 6 arguments is rejected, and an in-range pair encodes. -/
theorem format_encoders_reject_out_of_range_witness :
    Encode11n 0x12 0 8 = Except.error CheckError.checkFailed
  ∧ Encode35c 0x70 6 0 0 0 0 0 0 = Except.error CheckError.checkFailed
  ∧ (∃ units, Encode11n 0x12 3 5 = Except.ok units) := by
  refine ⟨?_, ?_, ?_⟩
  · exact (format_encoders_reject_out_of_range 0x12 0 6 0 0 0 0 0 0 8
      (by decide) (by decide) (by decide) (by decide) (by decide) (by decide)
      (by decide) (by decide)).1 (by right; right; decide)
  · exact (format_encoders_reject_out_of_range 0x70 0 6 0 0 0 0 0 0 0
      (by decide) (by decide) (by decide) (by decide) (by decide) (by decide)
      (by decide) (by decide)).2.2.1 (by left; decide)
  · exact (format_encoders_reject_out_of_range 0x12 3 0 0 0 0 0 0 0 5
      (by decide) (by decide) (by decide) (by decide) (by decide) (by decide)
      (by decide) (by decide)).2.1 (by decide) (by decide) (by decide)

/-- C7 counterexample: `Encode11x` and `Encode21c` do NOT reject a
register id of 256 toward their 8-bit register field — they encode it
modulo 256 (as register 0 and register 1 respectively) and succeed,
contradicting the claim that such a call aborts construction. -/
theorem unchecked_8bit_register_fields_counterexample :
    Encode11x 0x0f 256 = Except.ok [0x0f]
  ∧ Encode11x 0x0f 256 = Encode11x 0x0f 0
  ∧ Encode21c 0x22 257 7 = Except.ok [0x122, 7]
  ∧ Encode21c 0x22 257 7 = Encode21c 0x22 1 7 := by
  exact ⟨rfl, rfl, rfl, rfl⟩

/-- C7 amended: `Encode11n` and `Encode35c` do check their 4-bit register
fields, but the 8-bit register fields of `Encode11x` (format B) and
`Encode21c` (format D) are unchecked: for every register value the call
succeeds, and a value of 256 or more is silently truncated modulo 256. -/
theorem unchecked_8bit_register_fields (op a b : Nat) :
    (Encode11x op a).isOk = true
  ∧ Encode11x op a = Encode11x op (a % 256)
  ∧ (Encode21c op a b).isOk = true
  ∧ Encode21c op a b = Encode21c op (a % 256) b := by
  refine ⟨rfl, ?_, rfl, ?_⟩ <;>
    simp [Encode11x, Encode21c, u8, Nat.mod_mod_of_dvd]

/-- C2: during the encode pass, a Parameter operand with index `i`
resolves to register number `num_registers + i`, a Local operand
resolves to its allocation id unchanged, and a method with 3 allocated
locals resolves parameter 0 to register 3 and parameter 1 to register 4. -/
theorem register_value_resolution :
    (∀ (s : MethodState) (i : Nat),
        s.RegisterValue (Value.Parameter i) = s.num_registers + i)
  ∧ (∀ (s : MethodState) (i : Nat), s.RegisterValue (Value.Local i) = i)
  ∧ threeLocalState.num_registers = 3
  ∧ threeLocalState.RegisterValue (Value.Parameter 0) = 3
  ∧ threeLocalState.RegisterValue (Value.Parameter 1) = 4 := by
  refine ⟨?_, ?_, rfl, rfl, rfl⟩ <;>
    intro s i <;>
    simp [MethodState.RegisterValue, Value.is_register, Value.is_parameter,
      Value.Parameter, Value.Local, Value.value]

/-- C9: the k-th call to the register allocator (counting from 0) on a
fresh encoder returns `Local k` — in general the k-th call from state
`s` returns `Local (s.num_registers + k)` — so ids start at 0, increase
by one per call, and no id is returned twice. -/
theorem make_register_fresh_ids :
    (∀ (s : MethodState) (k : Nat),
        s.kthMakeRegister k = Value.Local (s.num_registers + k))
  ∧ (∀ k, MethodState.fresh.kthMakeRegister k = Value.Local k)
  ∧ (∀ (s : MethodState) (j k : Nat),
        s.kthMakeRegister j = s.kthMakeRegister k → j = k) := by
  have base : ∀ (s : MethodState) (k : Nat),
      s.kthMakeRegister k = Value.Local (s.num_registers + k) := by
    intro s k
    induction k generalizing s with
    | zero => rfl
    | succ k ih =>
      show (s.MakeRegister.2).kthMakeRegister k = _
      rw [ih]
      have : s.MakeRegister.2.num_registers + k = s.num_registers + (k + 1) := by
        simp [MethodState.MakeRegister]
        omega
      rw [this]
  refine ⟨base, fun k => by simpa [MethodState.fresh] using base MethodState.fresh k, ?_⟩
  intro s j k h
  rw [base s j, base s k] at h
  have : s.num_registers + j = s.num_registers + k := congrArg Value.value_ h
  omega

/-- Witness for the C9 theorem: on a fresh encoder the fourth call
returns `Local 3`, and equal allocator results imply equal call indices. -/
theorem make_register_fresh_ids_witness :
    MethodState.fresh.kthMakeRegister 3
        = Value.Local (MethodState.fresh.num_registers + 3)
  ∧ (2 : Nat) = 2 := by
  exact ⟨make_register_fresh_ids.1 MethodState.fresh 3,
         make_register_fresh_ids.2.2 MethodState.fresh 2 2 rfl⟩

/-- A type descriptor's short descriptor is the singleton of its
descriptor's first character, when the descriptor is nonempty. -/
theorem data_short_descriptor (t : TypeDescriptor) (h : t.descriptor_.data ≠ []) :
    t.short_descriptor.data = [t.descriptor_.data.headD 'V'] := by
  show t.descriptor_.data.take 1 = _
  cases hc : t.descriptor_.data with
  | nil => exact absurd hc h
  | cons c cs => rfl

/-- Unrolls the shorty accumulation into a data-list concatenation. -/
theorem shorty_foldl_data (l : List TypeDescriptor) (acc : String) :
    (l.foldl (fun a t => a ++ t.short_descriptor) acc).data
      = acc.data ++ (l.map (fun t => t.short_descriptor.data)).flatten := by
  induction l generalizing acc with
  | nil => simp
  | cons t ts ih => simp [ih, String.data_append]

/-- Flattening the short descriptors of a list of nonempty-descriptor
types gives one first-character per type. -/
theorem flatten_short_descriptors (l : List TypeDescriptor)
    (h : ∀ t ∈ l, t.descriptor_.data ≠ []) :
    (l.map (fun t => t.short_descriptor.data)).flatten
      = l.map (fun t => t.descriptor_.data.headD 'V') := by
  induction l with
  | nil => rfl
  | cons t ts ih =>
    have ht : t.descriptor_.data ≠ [] := h t (by simp)
    have hts : ∀ u ∈ ts, u.descriptor_.data ≠ [] := fun u hu => h u (by simp [hu])
    simp only [List.map_cons, List.flatten_cons, ih hts, data_short_descriptor t ht]
    rfl

/-- C8: the shorty signature has exactly one character per type, the
return type's character first, each character being the first character
of that type's descriptor; in particular (Int, Int) -> Void derives
`VII`. -/
theorem shorty_one_char_per_type (p : Prototype)
    (h : ∀ t ∈ p.return_type_ :: p.param_types_, t.descriptor_.data ≠ []) :
    p.Shorty.data
      = (p.return_type_ :: p.param_types_).map (fun t => t.descriptor_.data.headD 'V')
  ∧ voidIntInt.Shorty = "VII" := by
  constructor
  · have hret : p.return_type_.descriptor_.data ≠ [] := h _ (by simp)
    have hps : ∀ t ∈ p.param_types_, t.descriptor_.data ≠ [] :=
      fun t ht => h t (by simp [ht])
    show (p.param_types_.foldl (fun a t => a ++ t.short_descriptor)
        p.return_type_.short_descriptor).data = _
    rw [shorty_foldl_data, flatten_short_descriptors _ hps,
        data_short_descriptor _ hret]
    rfl
  · rfl

/-- Witness for the C8 theorem at the (Int, Int) -> Void prototype. -/
theorem shorty_one_char_per_type_witness :
    voidIntInt.Shorty.data
      = (voidIntInt.return_type_ :: voidIntInt.param_types_).map
          (fun t => t.descriptor_.data.headD 'V')
  ∧ voidIntInt.Shorty = "VII" := by
  exact shorty_one_char_per_type voidIntInt (by decide)

/-- A key found in a table is still found, with the same id, after any
suffix is appended. -/
theorem lookupKey_append_some {κ : Type} [DecidableEq κ]
    (t1 t2 : List (κ × Nat)) (k : κ) (v : Nat) (h : lookupKey t1 k = some v) :
    lookupKey (t1 ++ t2) k = some v := by
  induction t1 with
  | nil => exact absurd h (by simp [lookupKey])
  | cons e rest ih =>
    by_cases hk : e.1 = k
    · simp only [lookupKey, if_pos hk] at h
      simp [List.cons_append, lookupKey, if_pos hk, h]
    · simp only [lookupKey, if_neg hk] at h
      simp only [List.cons_append, lookupKey, if_neg hk]
      exact ih h

/-- Appending a binding for an absent key makes it found with that id. -/
theorem lookupKey_append_new {κ : Type} [DecidableEq κ]
    (t : List (κ × Nat)) (k : κ) (n : Nat) (h : lookupKey t k = none) :
    lookupKey (t ++ [(k, n)]) k = some n := by
  induction t with
  | nil => simp [lookupKey]
  | cons e rest ih =>
    by_cases hk : e.1 = k
    · simp [lookupKey, hk] at h
    · simp only [List.cons_append, lookupKey, if_neg hk] at h ⊢
      exact ih h

/-- Behaviour of `getOrCreate` on a key already present. -/
theorem getOrCreate_of_some {κ : Type} [DecidableEq κ]
    (t : List (κ × Nat)) (k : κ) (v : Nat) (h : lookupKey t k = some v) :
    getOrCreate t k = (v, t) := by
  simp [getOrCreate, h]

/-- Behaviour of `getOrCreate` on a fresh key. -/
theorem getOrCreate_of_none {κ : Type} [DecidableEq κ]
    (t : List (κ × Nat)) (k : κ) (h : lookupKey t k = none) :
    getOrCreate t k = (t.length, t ++ [(k, t.length)]) := by
  simp [getOrCreate, h]

/-- After `getOrCreate`, the key maps to the returned id. -/
theorem getOrCreate_lookup_self {κ : Type} [DecidableEq κ]
    (t : List (κ × Nat)) (k : κ) :
    lookupKey (getOrCreate t k).2 k = some (getOrCreate t k).1 := by
  cases h : lookupKey t k with
  | some v => rw [getOrCreate_of_some t k v h]; exact h
  | none => rw [getOrCreate_of_none t k h]; exact lookupKey_append_new t k _ h

/-- The bundle of interning properties of `getOrCreate`: a repeated key
returns the same id and leaves the table untouched; a fresh key grows
the table by exactly one; existing entries survive any call. -/
theorem getOrCreate_intern_properties {κ : Type} [DecidableEq κ]
    (t : List (κ × Nat)) (k : κ) :
    (getOrCreate (getOrCreate t k).2 k).1 = (getOrCreate t k).1
  ∧ (getOrCreate (getOrCreate t k).2 k).2 = (getOrCreate t k).2
  ∧ (lookupKey t k = none → (getOrCreate t k).2.length = t.length + 1)
  ∧ (∀ v, lookupKey t k = some v → (getOrCreate t k).2 = t)
  ∧ (∀ k' v, lookupKey t k' = some v →
        lookupKey (getOrCreate t k).2 k' = some v) := by
  have htwice : getOrCreate (getOrCreate t k).2 k
      = ((getOrCreate t k).1, (getOrCreate t k).2) := by
    exact getOrCreate_of_some _ _ _ (getOrCreate_lookup_self t k)
  refine ⟨by rw [htwice], by rw [htwice], ?_, ?_, ?_⟩
  · intro h; rw [getOrCreate_of_none t k h]; simp
  · intro v h; rw [getOrCreate_of_some t k v h]
  · intro k' v h
    cases hk : lookupKey t k with
    | some w => rw [getOrCreate_of_some t k w hk]; exact h
    | none => rw [getOrCreate_of_none t k hk]; exact lookupKey_append_some _ _ _ _ h

/-- C4: every interning operation — types by descriptor, strings by
value, prototypes by signature, methods by (type, name, prototype) — is
an idempotent get-or-create: a repeated key returns the same id both
times (leaving the table untouched, so its size grows by zero), a fresh
key grows the table by exactly one, and entries are never removed by any
call. -/
theorem interning_idempotent_append_only :
    (∀ (d : DexState) (k : String),
        ((d.GetOrAddType k).2.GetOrAddType k).1 = (d.GetOrAddType k).1
      ∧ ((d.GetOrAddType k).2.GetOrAddType k).2 = (d.GetOrAddType k).2
      ∧ (lookupKey d.types_by_descriptor k = none →
          (d.GetOrAddType k).2.types_by_descriptor.length
            = d.types_by_descriptor.length + 1)
      ∧ (∀ v, lookupKey d.types_by_descriptor k = some v →
          (d.GetOrAddType k).2.types_by_descriptor = d.types_by_descriptor)
      ∧ (∀ k' v, lookupKey d.types_by_descriptor k' = some v →
          lookupKey (d.GetOrAddType k).2.types_by_descriptor k' = some v))
  ∧ (∀ (d : DexState) (k : String),
        ((d.GetOrAddString k).2.GetOrAddString k).1 = (d.GetOrAddString k).1
      ∧ ((d.GetOrAddString k).2.GetOrAddString k).2 = (d.GetOrAddString k).2
      ∧ (lookupKey d.strings k = none →
          (d.GetOrAddString k).2.strings.length = d.strings.length + 1)
      ∧ (∀ v, lookupKey d.strings k = some v →
          (d.GetOrAddString k).2.strings = d.strings)
      ∧ (∀ k' v, lookupKey d.strings k' = some v →
          lookupKey (d.GetOrAddString k).2.strings k' = some v))
  ∧ (∀ (d : DexState) (k : Prototype),
        ((d.GetOrEncodeProto k).2.GetOrEncodeProto k).1 = (d.GetOrEncodeProto k).1
      ∧ ((d.GetOrEncodeProto k).2.GetOrEncodeProto k).2 = (d.GetOrEncodeProto k).2
      ∧ (lookupKey d.proto_map k = none →
          (d.GetOrEncodeProto k).2.proto_map.length = d.proto_map.length + 1)
      ∧ (∀ v, lookupKey d.proto_map k = some v →
          (d.GetOrEncodeProto k).2.proto_map = d.proto_map)
      ∧ (∀ k' v, lookupKey d.proto_map k' = some v →
          lookupKey (d.GetOrEncodeProto k).2.proto_map k' = some v))
  ∧ (∀ (d : DexState) (ty : TypeDescriptor) (name : String) (proto : Prototype),
        ((d.GetOrDeclareMethod ty name proto).2.GetOrDeclareMethod ty name proto).1
            = (d.GetOrDeclareMethod ty name proto).1
      ∧ ((d.GetOrDeclareMethod ty name proto).2.GetOrDeclareMethod ty name proto).2
            = (d.GetOrDeclareMethod ty name proto).2
      ∧ (lookupKey d.method_id_map ⟨ty, name, proto⟩ = none →
          (d.GetOrDeclareMethod ty name proto).2.method_id_map.length
            = d.method_id_map.length + 1)
      ∧ (∀ v, lookupKey d.method_id_map ⟨ty, name, proto⟩ = some v →
          (d.GetOrDeclareMethod ty name proto).2.method_id_map = d.method_id_map)
      ∧ (∀ k' v, lookupKey d.method_id_map k' = some v →
          lookupKey (d.GetOrDeclareMethod ty name proto).2.method_id_map k'
            = some v)) := by
  refine ⟨fun d k => ?_, fun d k => ?_, fun d k => ?_, fun d ty name proto => ?_⟩
  · obtain ⟨h1, h2, h3, h4, h5⟩ :=
      getOrCreate_intern_properties d.types_by_descriptor k
    refine ⟨h1, ?_, h3, h4, h5⟩
    show ({ d with types_by_descriptor :=
        (getOrCreate (getOrCreate d.types_by_descriptor k).2 k).2 } : DexState) = _
    rw [h2]
    rfl
  · obtain ⟨h1, h2, h3, h4, h5⟩ := getOrCreate_intern_properties d.strings k
    refine ⟨h1, ?_, h3, h4, h5⟩
    show ({ d with strings := (getOrCreate (getOrCreate d.strings k).2 k).2 }
        : DexState) = _
    rw [h2]
    rfl
  · obtain ⟨h1, h2, h3, h4, h5⟩ := getOrCreate_intern_properties d.proto_map k
    refine ⟨h1, ?_, h3, h4, h5⟩
    show ({ d with proto_map := (getOrCreate (getOrCreate d.proto_map k).2 k).2 }
        : DexState) = _
    rw [h2]
    rfl
  · obtain ⟨h1, h2, h3, h4, h5⟩ :=
      getOrCreate_intern_properties d.method_id_map ⟨ty, name, proto⟩
    refine ⟨h1, ?_, h3, h4, h5⟩
    show ({ d with method_id_map :=
        (getOrCreate (getOrCreate d.method_id_map ⟨ty, name, proto⟩).2
          ⟨ty, name, proto⟩).2 } : DexState) = _
    rw [h2]
    rfl

/-- Witness for the C4 theorem on a fresh builder: interning descriptor
`I` twice returns the same id, and the first interning grows the type
table from size 0 to size 1. -/
theorem interning_idempotent_append_only_witness :
    ((DexState.fresh.GetOrAddType "I").2.GetOrAddType "I").1
      = (DexState.fresh.GetOrAddType "I").1
  ∧ (DexState.fresh.GetOrAddType "I").2.types_by_descriptor.length
      = DexState.fresh.types_by_descriptor.length + 1 := by
  refine ⟨(interning_idempotent_append_only.1 DexState.fresh "I").1,
    (interning_idempotent_append_only.1 DexState.fresh "I").2.2.1 rfl⟩

/-- C6: `BuildNew` appends exactly two virtual instructions, in order
with nothing in between: an object allocation with destination `target`
and the interned type id of `type`, immediately followed by a direct
invocation of the interned `<init>` constructor method with `target` as
the receiver and the remaining arguments in call order. -/
theorem build_new_appends_alloc_then_ctor (d : DexState) (s : MethodState)
    (target : Value) (type : TypeDescriptor) (constructor : Prototype)
    (args : List Value) :
    ∃ tid cid,
      (BuildNew d s target type constructor args).2.instructions
        = s.instructions
          ++ [Instruction.OpWithArgs Op.kNew (some target) [Value.TypeRef tid],
              Instruction.InvokeDirect cid none target args]
    ∧ lookupKey (BuildNew d s target type constructor args).1.types_by_descriptor
        type.descriptor = some tid
    ∧ lookupKey (BuildNew d s target type constructor args).1.method_id_map
        ⟨type, "<init>", constructor⟩ = some cid := by
  refine ⟨((d.GetOrDeclareMethod type "<init>" constructor).2.GetOrAddType
            type.descriptor).1,
          (d.GetOrDeclareMethod type "<init>" constructor).1, ?_, ?_, ?_⟩
  · simp [BuildNew, MethodState.AddInstruction]
  · exact getOrCreate_lookup_self _ _
  · exact getOrCreate_lookup_self _ _

/-- C5: once a method encoder's encode pass has succeeded, invoking it a
second time on the resulting encoder is rejected as a double-encode
contract violation — it is not re-run and nothing is appended again. -/
theorem encode_rejects_second_invocation (m m' : MethodBuilder)
    (units : List Nat) (h : m.Encode = Except.ok (units, m')) :
    m'.Encode = Except.error BuildError.doubleEncode
  ∧ m'.encoded = true ∧ m'.state.buffer = units := by
  unfold MethodBuilder.Encode at h
  by_cases he : m.encoded
  · simp [he] at h
  · simp only [he, if_false, Bool.false_eq_true, if_neg] at h
    cases hx : m.state.EncodeInstructions with
    | error e => rw [hx] at h; exact absurd h (by simp)
    | ok s2 =>
      rw [hx] at h
      have h2 : (s2.buffer, (⟨s2, true⟩ : MethodBuilder)) = (units, m') :=
        by injection h
      have hm : m' = ⟨s2, true⟩ := (congrArg Prod.snd h2).symm
      have hu : s2.buffer = units := congrArg Prod.fst h2
      subst hm
      exact ⟨by simp [MethodBuilder.Encode], rfl, hu⟩

/-- Witness for the C5 theorem: encoding a one-instruction method
succeeds once, and re-invoking the pass on the result is rejected. -/
theorem encode_rejects_second_invocation_witness :
    sampleBuilder.Encode = Except.ok ([RETURN_VOID], sampleEncoded)
  ∧ sampleEncoded.Encode = Except.error BuildError.doubleEncode := by
  refine ⟨rfl, (encode_rejects_second_invocation sampleBuilder sampleEncoded
    [RETURN_VOID] rfl).1⟩

/-- Encoding a branch against an unbound label emits the packed test
unit followed by a placeholder 0, and records the pending patch site
(instruction offset, field offset) on the label. -/
theorem encodeBranchEqz_unbound (s : MethodState) (op : Nat) (t : Value)
    (l : Nat) (refs : List LabelReference)
    (hl : s.labels[l]? = some ⟨none, refs⟩) :
    s.EncodeBranchEqz op t (Value.Label l)
      = { s with
          buffer := (s.buffer ++ [u16 (u8 (s.RegisterValue t) * 256 + u8 op)])
            ++ [0],
          labels := s.labels.set l
            ⟨none, ⟨s.buffer.length, s.buffer.length + 1⟩ :: refs⟩ } := by
  unfold MethodState.EncodeBranchEqz MethodState.LabelValue
  simp only [Value.Label, Value.value, hl]

/-- Encoding a branch against a bound label emits the packed test unit
followed immediately by the resolved offset (bound address minus this
instruction's start address), leaving the label table untouched. -/
theorem encodeBranchEqz_bound (s : MethodState) (op : Nat) (t : Value)
    (l addr : Nat) (refs : List LabelReference)
    (hl : s.labels[l]? = some ⟨some addr, refs⟩) :
    s.EncodeBranchEqz op t (Value.Label l)
      = { s with
          buffer := (s.buffer ++ [u16 (u8 (s.RegisterValue t) * 256 + u8 op)])
            ++ [u2ofInt ((addr : Int) - (s.buffer.length : Int))] } := by
  unfold MethodState.EncodeBranchEqz MethodState.LabelValue
  simp only [Value.Label, Value.value, hl]

/-- Binding a label with a single pending reference records the current
buffer length as its bound address and overwrites the pending field in
place with (bound address minus the pending instruction offset). -/
theorem bindLabel_single_ref (s : MethodState) (l io fo : Nat)
    (hl : s.labels[l]? = some ⟨none, [⟨io, fo⟩]⟩) :
    s.BindLabel (Value.Label l)
      = { s with
          buffer := s.buffer.set fo
            (u2ofInt ((s.buffer.length : Int) - (io : Int))),
          labels := s.labels.set l ⟨some s.buffer.length, []⟩ } := by
  unfold MethodState.BindLabel
  simp only [Value.Label, Value.value, hl, List.foldl]

/-- Index computation: the patched offset field written at position
(branch start + 1) survives all later appends to the buffer. -/
theorem patched_field_index (b us vs : List Nat) (w1 wB w2 wb : Nat) :
    (((((((b ++ [w1]) ++ [0]) ++ us).set (b.length + 1) wB) ++ vs) ++ [w2])
        ++ [wb])[b.length + 1]?
      = some wB := by
  rw [List.getElem?_append_left (by simp [List.length_set]),
      List.getElem?_append_left (by simp [List.length_set]),
      List.getElem?_append_left (by simp [List.length_set]),
      List.getElem?_set_self (by simp)]

/-- Index computation: the offset field of the second (backward) branch
is the final code unit of the buffer. -/
theorem backward_field_index (b us vs : List Nat) (w1 wB w2 wb : Nat) :
    (((((((b ++ [w1]) ++ [0]) ++ us).set (b.length + 1) wB) ++ vs) ++ [w2])
        ++ [wb])[b.length + 2 + us.length + vs.length + 1]?
      = some wb := by
  rw [List.getElem?_append_right (by simp [List.length_set]; omega)]
  have h0 : b.length + 2 + us.length + vs.length + 1
      - ((((((b ++ [w1]) ++ [0]) ++ us).set (b.length + 1) wB) ++ vs)
          ++ [w2]).length = 0 := by
    simp [List.length_set]
    omega
  rw [h0]
  rfl

/-- C1: for every branch referencing a label, the encoded branch-offset
field equals (bound address − branch start address) in code units.  The
scenario: from any state `s` with an unbound label `l`, encode a branch
on `l` (forward reference, at start address `s.buffer.length`), emit any
units `us`, bind `l` (at bound address `s.buffer.length + 2 +
us.length`), emit any further units `vs`, then encode a second branch on
`l` (backward reference).  The forward branch's placeholder has been
overwritten with exactly (bound − start); the backward branch's field is
computed from the address recorded at bind time, unaffected by the `vs`
emitted after binding; and the label still carries that bind-time
address. -/
theorem branch_offset_equals_bound_minus_start (s : MethodState) (l op1 op2 : Nat) (t1 t2 : Value) (us vs : List Nat)
    (hl : s.labels[l]? = some ⟨none, []⟩) :
    (((((s.EncodeBranchEqz op1 t1 (Value.Label l)).EmitUnits us).BindLabel
          (Value.Label l)).EmitUnits vs).EncodeBranchEqz op2 t2
        (Value.Label l)).buffer[s.buffer.length + 1]?
      = some (u2ofInt (((s.buffer.length + 2 + us.length : Nat) : Int)
          - (s.buffer.length : Int)))
  ∧ (((((s.EncodeBranchEqz op1 t1 (Value.Label l)).EmitUnits us).BindLabel
          (Value.Label l)).EmitUnits vs).EncodeBranchEqz op2 t2
        (Value.Label l)).buffer[s.buffer.length + 2 + us.length + vs.length + 1]?
      = some (u2ofInt (((s.buffer.length + 2 + us.length : Nat) : Int)
          - ((s.buffer.length + 2 + us.length + vs.length : Nat) : Int)))
  ∧ (((((s.EncodeBranchEqz op1 t1 (Value.Label l)).EmitUnits us).BindLabel
          (Value.Label l)).EmitUnits vs).EncodeBranchEqz op2 t2
        (Value.Label l)).labels[l]?
      = some ⟨some (s.buffer.length + 2 + us.length), []⟩ := by
  have hlen : l < s.labels.length := (List.getElem?_eq_some.mp hl).1
  have e1 : s.EncodeBranchEqz op1 t1 (Value.Label l)
      = { s with
          buffer := (s.buffer
            ++ [u16 (u8 (s.RegisterValue t1) * 256 + u8 op1)]) ++ [0],
          labels := s.labels.set l
            ⟨none, [⟨s.buffer.length, s.buffer.length + 1⟩]⟩ } :=
    encodeBranchEqz_unbound s op1 t1 l [] hl
  have e3 : ((s.EncodeBranchEqz op1 t1 (Value.Label l)).EmitUnits us).BindLabel
        (Value.Label l)
      = { s with
          buffer := (((s.buffer
              ++ [u16 (u8 (s.RegisterValue t1) * 256 + u8 op1)]) ++ [0]) ++ us).set
            (s.buffer.length + 1)
            (u2ofInt (((((s.buffer
                ++ [u16 (u8 (s.RegisterValue t1) * 256 + u8 op1)]) ++ [0])
                  ++ us).length : Int) - (s.buffer.length : Int))),
          labels := (s.labels.set l
              ⟨none, [⟨s.buffer.length, s.buffer.length + 1⟩]⟩).set l
            ⟨some (((s.buffer
              ++ [u16 (u8 (s.RegisterValue t1) * 256 + u8 op1)]) ++ [0])
                ++ us).length, []⟩ } := by
    rw [e1]
    exact bindLabel_single_ref
      { s with
        buffer := ((s.buffer
          ++ [u16 (u8 (s.RegisterValue t1) * 256 + u8 op1)]) ++ [0]) ++ us,
        labels := s.labels.set l
          ⟨none, [⟨s.buffer.length, s.buffer.length + 1⟩]⟩ }
      l s.buffer.length (s.buffer.length + 1) (List.getElem?_set_self hlen)
  have hb : ((((s.EncodeBranchEqz op1 t1 (Value.Label l)).EmitUnits us).BindLabel
        (Value.Label l)).EmitUnits vs).labels[l]?
      = some ⟨some (((s.buffer
          ++ [u16 (u8 (s.RegisterValue t1) * 256 + u8 op1)]) ++ [0])
            ++ us).length, []⟩ := by
    rw [e3]
    exact List.getElem?_set_self (by simpa using hlen)
  rw [encodeBranchEqz_bound
    ((((s.EncodeBranchEqz op1 t1 (Value.Label l)).EmitUnits us).BindLabel
        (Value.Label l)).EmitUnits vs)
    op2 t2 l
    (((s.buffer ++ [u16 (u8 (s.RegisterValue t1) * 256 + u8 op1)]) ++ [0])
      ++ us).length
    [] hb]
  have hbuf : ((((s.EncodeBranchEqz op1 t1 (Value.Label l)).EmitUnits us).BindLabel
        (Value.Label l)).EmitUnits vs).buffer
      = ((((s.buffer
          ++ [u16 (u8 (s.RegisterValue t1) * 256 + u8 op1)]) ++ [0]) ++ us).set
        (s.buffer.length + 1)
        (u2ofInt (((((s.buffer
            ++ [u16 (u8 (s.RegisterValue t1) * 256 + u8 op1)]) ++ [0])
              ++ us).length : Int) - (s.buffer.length : Int)))) ++ vs := by
    rw [e3]
    rfl
  refine ⟨?_, ?_, ?_⟩
  · show ((((((s.EncodeBranchEqz op1 t1 (Value.Label l)).EmitUnits us).BindLabel
        (Value.Label l)).EmitUnits vs).buffer ++ _) ++ _)[s.buffer.length + 1]? = _
    rw [hbuf]
    refine (patched_field_index s.buffer us vs _ _ _ _).trans ?_
    refine congrArg some (congrArg u2ofInt ?_)
    simp only [List.length_append, List.length_cons, List.length_nil]
  · show ((((((s.EncodeBranchEqz op1 t1 (Value.Label l)).EmitUnits us).BindLabel
        (Value.Label l)).EmitUnits vs).buffer ++ _)
          ++ _)[s.buffer.length + 2 + us.length + vs.length + 1]? = _
    rw [hbuf]
    refine (backward_field_index s.buffer us vs _ _ _ _).trans ?_
    refine congrArg some (congrArg u2ofInt ?_)
    simp only [List.length_append, List.length_cons, List.length_nil,
      List.length_set]
  · show ((((s.EncodeBranchEqz op1 t1 (Value.Label l)).EmitUnits us).BindLabel
        (Value.Label l)).EmitUnits vs).labels[l]? = _
    rw [hb]
    refine congrArg some ?_
    refine congrArg (fun n => (⟨some n, []⟩ : LabelData)) ?_
    simp only [List.length_append, List.length_cons, List.length_nil]

/-- Witness for the C1 theorem: one unbound label, a forward branch at
address 0, two filler units, the bind at address 4, one filler unit and
a backward branch at address 5: the forward field holds 4 − 0 = 4 and
the backward field holds 4 − 5 = −1 as a 16-bit code unit (65535). -/
theorem branch_offset_equals_bound_minus_start_witness :
    oneLabelState.labels[0]? = some ⟨none, []⟩
  ∧ ((((((oneLabelState.EncodeBranchEqz 0x38 (Value.Local 0) (Value.Label 0)).EmitUnits
          [7, 7]).BindLabel (Value.Label 0)).EmitUnits [9]).EncodeBranchEqz 0x38
          (Value.Local 0) (Value.Label 0)).buffer[1]? = some 4
    ∧ (((((oneLabelState.EncodeBranchEqz 0x38 (Value.Local 0) (Value.Label 0)).EmitUnits
          [7, 7]).BindLabel (Value.Label 0)).EmitUnits [9]).EncodeBranchEqz 0x38
          (Value.Local 0) (Value.Label 0)).buffer[6]? = some 65535
    ∧ (((((oneLabelState.EncodeBranchEqz 0x38 (Value.Local 0) (Value.Label 0)).EmitUnits
          [7, 7]).BindLabel (Value.Label 0)).EmitUnits [9]).EncodeBranchEqz 0x38
          (Value.Local 0) (Value.Label 0)).labels[0]? = some ⟨some 4, []⟩) :=
  ⟨rfl, branch_offset_equals_bound_minus_start oneLabelState 0 0x38 0x38 (Value.Local 0) (Value.Local 0)
    [7, 7] [9] rfl⟩

end StartopDex
